import Mathlib

/-!
Verification of the newslett-server story clustering and calm-ranking core.

The definitions below are a shallow embedding of the JavaScript sources:
* `src/services/clusteringService.js` (similarity engine + clustering),
* `src/models/Story.js` (`getWithCalmRanking`, `recalculateImportance`),
* the StorySource model (`calculateSourceDiversity`, `calculateAverageCredibility`),
* the Source model (`getOrCreate` with the known-source table),
* the calm ranking service (`calculateImportanceScore`, `getStoriesWithCalmRanking`),
* the context service (`buildTimeline`, `calculateRelevance`).

Conventions: JS numbers are modelled as exact rationals (`ℚ`), dates as integer
milliseconds since the epoch (`Int`), Mongo collections as Lean lists in natural
(insertion) order, and `Date.now()` as an explicit `now : Int` parameter.
JS falsy-default idioms (`x || d`) are translated explicitly.  Text is processed
over `List Char` (`String.data`); all the repository's inputs are ASCII, where
`Char.isAlphanum`/`Char.toLower` agree with the JS regex class `\w` and
`String.prototype.toLowerCase`.
-/

namespace Newslett

/-- JS `Math.min` on two numbers. -/
def mathMin (a b : ℚ) : ℚ := if a ≤ b then a else b

/-- JS `Math.max` on two numbers. -/
def mathMax (a b : ℚ) : ℚ := if a ≤ b then b else a

/-- JS `Math.round(q * 1000) / 1000` (round to 3 decimal places);
`Math.round` rounds half-up, i.e. `⌊x + 1/2⌋`. -/
def round3 (q : ℚ) : ℚ := ((⌊q * 1000 + 1/2⌋ : ℤ) : ℚ) / 1000

/-! ### Text utilities shared by the similarity code -/

/-- A character matched by the JS regex class `\w` (`[A-Za-z0-9_]`). -/
def isWordChar (c : Char) : Bool := c.isAlphanum || c = '_'

/-- `text.replace(/[^\w\s]/g, ' ')` — clusteringService's normalization,
which turns every non-word non-space character into a space. -/
def replaceNonWordWithSpace (cs : List Char) : List Char :=
  cs.map (fun c => if isWordChar c || c.isWhitespace then c else ' ')

/-- `text.replace(/[^\w\s]/g, '')` — contextService's normalization,
which deletes every non-word non-space character. -/
def removeNonWord (cs : List Char) : List Char :=
  cs.filter (fun c => isWordChar c || c.isWhitespace)

/-- Accumulator form of `splitWs`. -/
def splitWsAux : List Char → List Char → List (List Char)
  | [], cur => if cur = [] then [] else [cur.reverse]
  | c :: rest, cur =>
    if c.isWhitespace then
      if cur = [] then splitWsAux rest []
      else cur.reverse :: splitWsAux rest []
    else splitWsAux rest (c :: cur)

/-- `text.split(/\s+/)` with empty fragments dropped.  Every caller in the
sources filters the fragments by a positive length bound, so dropping the empty
fragment produced by leading whitespace is behaviour-preserving. -/
def splitWs (cs : List Char) : List (List Char) := splitWsAux cs []

/-- ASCII lower-casing of a character list (JS `toLowerCase`). -/
def lowerChars (cs : List Char) : List Char := cs.map Char.toLower

/-- The stop-word set of `clusteringService.calculateSimilarity`. -/
def clusterStopwords : List String :=
  ["the", "a", "an", "and", "or", "but", "in", "on", "at", "to", "for",
   "of", "with", "by", "from", "as", "is", "was", "are", "were", "been",
   "be", "have", "has", "had", "do", "does", "did", "will", "would", "could",
   "should", "may", "might", "must", "shall", "can", "need", "dare", "ought",
   "used", "said", "says", "that", "this", "these", "those", "what", "which",
   "who", "whom", "whose", "when", "where", "why", "how", "all", "each",
   "every", "both", "few", "more", "most", "other", "some", "such", "only",
   "own", "same", "than", "too", "very", "just", "also", "now", "here"]

/-- The cluster stop words as character lists. -/
def clusterStopData : List (List Char) := clusterStopwords.map String.data

/-- `extractWords` inside `calculateSimilarity`: lower-case, replace
punctuation by spaces, split on whitespace, keep words of length > 3 that are
not stop words. -/
def extractWords (text : String) : List (List Char) :=
  (splitWs (replaceNonWordWithSpace (lowerChars text.data))).filter
    (fun w => w.length > 3 && ¬ clusterStopData.contains w)

/-- `clusteringService.calculateSimilarity` — Jaccard similarity over the sets
of significant words (JS `Set`s are modelled by `List.dedup`). -/
def calculateSimilarity (text1 text2 : String) : ℚ :=
  if text1 = "" ∨ text2 = "" then 0 else
  let words1 := (extractWords text1).dedup
  let words2 := (extractWords text2).dedup
  if words1.length = 0 ∨ words2.length = 0 then 0 else
  let intersection := (words1.filter (fun w => words2.contains w)).length
  let union := (words1 ++ words2).dedup.length
  (intersection : ℚ) / (union : ℚ)

/-- `clusteringService.extractPhrases(text, n)`: split on whitespace, keep
tokens of length > 2, slide an `n`-token window, join each window with a
space. -/
def extractPhrases (text : List Char) (n : Nat) : List (List Char) :=
  let words := (splitWs text).filter (fun w => w.length > 2)
  (List.range (words.length + 1 - n)).map
    (fun i => List.intercalate [' '] ((words.drop i).take n))

/-- `clusteringService.calculateTitleSimilarity`: word similarity plus a
shared-3-word-phrase bonus of `min(shared * 0.1, 0.3)`, clamped to 1. -/
def calculateTitleSimilarity (title1 title2 : String) : ℚ :=
  let similarity := calculateSimilarity title1 title2
  let t1 := lowerChars title1.data
  let t2 := lowerChars title2.data
  let phrases1 := extractPhrases t1 3
  let phrases2 := extractPhrases t2 3
  let sharedPhrases := (phrases1.filter (fun p => phrases2.contains p)).length
  let phraseBonus := mathMin ((sharedPhrases : ℚ) * (1/10)) (3/10)
  mathMin (similarity + phraseBonus) 1

/-! ### Data model

Only the fields read or written by the clustering, ranking and context code
are modelled; ids are `Nat` surrogates for Mongo ObjectIds. -/

/-- An ingested article (the `News` document fields consumed by clustering). -/
structure Article where
  id : Nat
  title : String
  description : String
  content : String
  source : String
  category : String
  mood : String
  publishedAt : Int
  deriving Repr, DecidableEq

/-- A `Story` document (the cluster unit). -/
structure Story where
  id : Nat
  canonicalTitle : String
  category : String
  mood : String
  sourceCount : Nat
  sourceDiversity : ℚ
  averageCredibility : ℚ
  importanceScore : ℚ
  firstSeen : Int
  lastUpdated : Int
  deriving Repr, DecidableEq

/-- A `StorySource` join document linking an article into a story. -/
structure StorySource where
  storyId : Nat
  articleId : Nat
  sourceName : String
  credibilityScore : ℚ
  isPrimary : Bool
  similarityScore : ℚ
  deriving Repr, DecidableEq

/-- A `Source` document (credibility registry entry). -/
structure Source where
  name : String
  credibilityScore : ℚ
  totalArticles : Nat
  lastSeenAt : Int
  deriving Repr, DecidableEq

/-- The persistent store: Mongo collections as lists in natural order.
`nextStoryId` models Mongo's fresh ObjectId generation for `Story.create`. -/
structure DB where
  stories : List Story
  storySources : List StorySource
  sources : List Source
  nextStoryId : Nat
  deriving Repr, DecidableEq

/-- `clusteringService.calculateArticleSimilarity(article1, article2)`:
`0.6 * titleSim + 0.4 * contentSim`, gated to 0 when the title similarity is
below 0.3; `contentSim` is word similarity over `description + ' ' + content`. -/
def calculateArticleSimilarity (article1 article2 : Article) : ℚ :=
  let titleWeight : ℚ := 6/10
  let contentWeight : ℚ := 4/10
  let titleSim := calculateTitleSimilarity article1.title article2.title
  let contentSim := calculateSimilarity
    (article1.description ++ " " ++ article1.content)
    (article2.description ++ " " ++ article2.content)
  if titleSim < 3/10 then 0 else titleWeight * titleSim + contentWeight * contentSim

/-! ### Source registry (`Source` model statics) -/

/-- The credibility scores of `KNOWN_SOURCE_SCORES` in the Source model
(only the `score` field is consumed by the clustering code). -/
def KNOWN_SOURCE_SCORES : List (String × ℚ) :=
  [("Reuters", (95 : ℚ)/100), ("Associated Press", (95 : ℚ)/100), ("AFP", (90 : ℚ)/100),
   ("BBC", (90 : ℚ)/100), ("NPR", (85 : ℚ)/100), ("PBS", (85 : ℚ)/100),
   ("New York Times", (85 : ℚ)/100), ("Washington Post", (85 : ℚ)/100),
   ("Wall Street Journal", (85 : ℚ)/100), ("The Guardian", (80 : ℚ)/100),
   ("Los Angeles Times", (80 : ℚ)/100),
   ("CNN", (70 : ℚ)/100), ("Fox News", (65 : ℚ)/100), ("MSNBC", (65 : ℚ)/100),
   ("TechCrunch", (75 : ℚ)/100), ("The Verge", (75 : ℚ)/100), ("Wired", (80 : ℚ)/100),
   ("Ars Technica", (80 : ℚ)/100),
   ("Axios", (80 : ℚ)/100), ("Politico", (75 : ℚ)/100), ("The Hill", (70 : ℚ)/100)]

/-- `Source.getOrCreate(sourceName)`: find by name, else create with the
known-source default (`knownData?.score || 0.5`); always bump `lastSeenAt`
and `totalArticles`, then save. -/
def getOrCreateSource (db : DB) (now : Int) (sourceName : String) : Source × DB :=
  match db.sources.find? (fun s => s.name = sourceName) with
  | some s =>
    let s2 : Source := { s with lastSeenAt := now, totalArticles := s.totalArticles + 1 }
    (s2, { db with sources := db.sources.map (fun t => if t.name = sourceName then s2 else t) })
  | none =>
    let score :=
      match KNOWN_SOURCE_SCORES.lookup sourceName with
      | some q => if q = 0 then (5 : ℚ)/10 else q
      | none => (5 : ℚ)/10
    let s2 : Source := { name := sourceName, credibilityScore := score,
                         totalArticles := 1, lastSeenAt := now }
    (s2, { db with sources := db.sources ++ [s2] })

/-! ### StorySource model statics -/

/-- The `sourceCategories` diversity table inside
`StorySource.calculateSourceDiversity`. -/
def sourceCategories : List (String × String) :=
  [("Reuters", "wire"), ("AP", "wire"), ("AFP", "wire"),
   ("BBC", "public"), ("NPR", "public"), ("PBS", "public"),
   ("CNN", "cable"), ("Fox News", "cable"), ("MSNBC", "cable"),
   ("New York Times", "newspaper"), ("Washington Post", "newspaper"),
   ("Wall Street Journal", "newspaper"), ("The Guardian", "newspaper"),
   ("TechCrunch", "tech"), ("The Verge", "tech"), ("Wired", "tech")]

/-- `sourceCategories[source] || 'other'`. -/
def sourceCategoryOf (source : String) : String :=
  (sourceCategories.lookup source).getD "other"

/-- `StorySource.calculateSourceDiversity(storyId)`: distinct source names of
the story's rows, mapped to categories, counted distinctly, divided by 6 and
capped at 1. -/
def calculateSourceDiversity (rows : List StorySource) (storyId : Nat) : ℚ :=
  let sources := ((rows.filter (fun r => r.storyId = storyId)).map
    (fun r => r.sourceName)).dedup
  let categoriesRepresented := (sources.map sourceCategoryOf).dedup
  mathMin ((categoriesRepresented.length : ℚ) / 6) 1

/-- `StorySource.calculateAverageCredibility(storyId)`: the average of the
story's rows' credibility snapshots, `0.5` when the story has no rows. -/
def calculateAverageCredibility (rows : List StorySource) (storyId : Nat) : ℚ :=
  let matched := rows.filter (fun r => r.storyId = storyId)
  if matched.length = 0 then (5 : ℚ)/10
  else (matched.map (fun r => r.credibilityScore)).sum / (matched.length : ℚ)

/-! ### Story model statics (`src/models/Story.js`) -/

/-- JS `s || d` for strings (empty string is falsy). -/
def jsOrString (s d : String) : String := if s = "" then d else s

/-- Replace the story with the same id (Mongoose `story.save()`). -/
def saveStory (db : DB) (story : Story) : DB :=
  { db with stories := db.stories.map (fun t => if t.id = story.id then story else t) }

/-- The shared recency component:
`Math.max(0, 1 - ageHours / 24)` with `ageHours = (now - firstSeen) / 3600000`.
Both `Story.recalculateImportance` and
`calmRankingService.calculateImportanceScore` compute exactly this. -/
def recencyScore (firstSeen now : Int) : ℚ :=
  mathMax 0 (1 - (((now - firstSeen : ℤ) : ℚ) / (1000 * 60 * 60)) / 24)

/-- The importance value computed by `Story.recalculateImportance` (weighted
sum of source, diversity, credibility and capped-recency scores; note: this
variant does not round). -/
def recalcImportanceValue (story : Story) (now : Int) : ℚ :=
  let sourceScore := mathMin ((story.sourceCount : ℚ) / 10) 1
  sourceScore * ((30 : ℚ)/100) + story.sourceDiversity * ((25 : ℚ)/100) +
    story.averageCredibility * ((25 : ℚ)/100) +
    recencyScore story.firstSeen now * ((20 : ℚ)/100)

/-- `Story.recalculateImportance(storyId)`: refetch the story, recompute the
weighted score, store it. -/
def recalculateImportance (db : DB) (now : Int) (storyId : Nat) : DB :=
  match db.stories.find? (fun t => decide (t.id = storyId)) with
  | none => db
  | some story => saveStory db { story with importanceScore := recalcImportanceValue story now }

/-- Sort key of `.sort({ importanceScore: -1, lastUpdated: -1 })`:
`a` precedes `b` under descending importance with descending `lastUpdated`
as tie-break. -/
def storyRankGE (a b : Story) : Prop :=
  b.importanceScore < a.importanceScore ∨
    (a.importanceScore = b.importanceScore ∧ b.lastUpdated ≤ a.lastUpdated)

instance : DecidableRel storyRankGE := fun a b => by
  unfold storyRankGE
  infer_instance

instance : IsTotal Story storyRankGE := by
  constructor
  intro a b
  unfold storyRankGE
  rcases lt_trichotomy a.importanceScore b.importanceScore with h | h | h
  · exact Or.inr (Or.inl h)
  · rcases le_total a.lastUpdated b.lastUpdated with h2 | h2
    · exact Or.inr (Or.inr ⟨h.symm, h2⟩)
    · exact Or.inl (Or.inr ⟨h, h2⟩)
  · exact Or.inl (Or.inl h)

instance : IsTrans Story storyRankGE := by
  constructor
  intro a b c hab hbc
  unfold storyRankGE at hab hbc ⊢
  rcases hab with h1 | ⟨h1, h1l⟩
  · rcases hbc with h2 | ⟨h2, _⟩
    · exact Or.inl (h2.trans h1)
    · exact Or.inl (h2 ▸ h1)
  · rcases hbc with h2 | ⟨h2, h2l⟩
    · exact Or.inl (h1 ▸ h2)
    · exact Or.inr ⟨h1.trans h2, h2l.trans h1l⟩

/-- The query predicate of `Story.getWithCalmRanking`: optional category
filter (skipped for the sentinel `'general'`), optional mood filter, and the
`firstSeen ≥ cutoff` recency cap. -/
def calmMatches (category mood : Option String) (cutoffDate : Int) (s : Story) : Bool :=
  (match category with
   | some c => if ¬ c = "" ∧ ¬ c = "general" then decide (s.category = c) else true
   | none => true) &&
  (match mood with
   | some m => if ¬ m = "" then decide (s.mood = m) else true
   | none => true) &&
  decide (cutoffDate ≤ s.firstSeen)

/-- The result shape of `Story.getWithCalmRanking`. -/
structure RankedResult where
  stories : List Story
  page : Nat
  limit : Nat
  total : Nat
  totalPages : Nat
  hasMore : Bool
  deriving Repr, DecidableEq

/-- `Story.getWithCalmRanking({page, limit, category, mood, maxAgeHours})`:
filter, sort by importance then `lastUpdated` (both descending), paginate
with `skip((page-1)*limit).limit(limit)`, and report
`{page, limit, total, totalPages: ceil(total/limit), hasMore: page*limit < total}`.
`(total + limit - 1) / limit` is `Math.ceil(total / limit)` for `limit ≥ 1`. -/
def getWithCalmRanking (db : DB) (now : Int) (page limit : Nat)
    (category mood : Option String) (maxAgeHours : Nat) : RankedResult :=
  let cutoffDate := now - (maxAgeHours : Int) * 60 * 60 * 1000
  let matched := db.stories.filter (calmMatches category mood cutoffDate)
  let total := matched.length
  let sorted := List.insertionSort storyRankGE matched
  { stories := (sorted.drop ((page - 1) * limit)).take limit,
    page := page, limit := limit, total := total,
    totalPages := (total + limit - 1) / limit,
    hasMore := decide (page * limit < total) }

/-! ### Calm ranking service (`calmRankingService.calculateImportanceScore`) -/

/-- `calmRankingService.calculateImportanceScore(story)`: the §4.4 weighted
sum, with JS falsy defaults `story.sourceDiversity || 0` and
`story.averageCredibility || 0.5`, rounded to 3 decimal places. -/
def calculateImportanceScore (story : Story) (now : Int) : ℚ :=
  let sourceScore := mathMin ((story.sourceCount : ℚ) / 10) 1
  let diversityScore := if story.sourceDiversity = 0 then 0 else story.sourceDiversity
  let credibilityScore :=
    if story.averageCredibility = 0 then (5 : ℚ)/10 else story.averageCredibility
  let score := sourceScore * ((30 : ℚ)/100) + diversityScore * ((25 : ℚ)/100) +
    credibilityScore * ((25 : ℚ)/100) + recencyScore story.firstSeen now * ((20 : ℚ)/100)
  round3 score

/-! ### Clustering engine (`clusteringService`) -/

/-- `clusteringService.SIMILARITY_THRESHOLD`. -/
def SIMILARITY_THRESHOLD : ℚ := (65 : ℚ)/100

/-- `clusteringService.findMatchingStory(article)`: scan stories of the same
category first seen within 48 hours, track the best title similarity strictly
above the threshold (first maximum wins under the store's natural order). -/
def findMatchingStory (db : DB) (now : Int) (article : Article) : Option (Story × ℚ) :=
  let cutoff := now - 48 * 60 * 60 * 1000
  let recentStories := db.stories.filter
    (fun s => decide (cutoff ≤ s.firstSeen) &&
      decide (s.category = jsOrString article.category "general"))
  recentStories.foldl
    (fun acc story =>
      let similarity := calculateTitleSimilarity article.title story.canonicalTitle
      let bestScore := match acc with | some (_, b) => b | none => 0
      if SIMILARITY_THRESHOLD < similarity ∧ bestScore < similarity then
        some (story, similarity)
      else acc)
    none

/-- `clusteringService.createStoryFromArticle(article)`: get-or-create the
source, create the story (placeholder importance `credibility * 0.25`) and its
primary `StorySource` row. -/
def createStoryFromArticle (db : DB) (now : Int) (article : Article) : Story × DB :=
  let sourceAndDb := getOrCreateSource db now article.source
  let source := sourceAndDb.1
  let db1 := sourceAndDb.2
  let story : Story :=
    { id := db1.nextStoryId,
      canonicalTitle := article.title,
      category := jsOrString article.category "general",
      mood := jsOrString article.mood "neutral",
      sourceCount := 1,
      sourceDiversity := 0,
      averageCredibility := source.credibilityScore,
      importanceScore := source.credibilityScore * ((25 : ℚ)/100),
      firstSeen := article.publishedAt,
      lastUpdated := now }
  let row : StorySource :=
    { storyId := story.id, articleId := article.id, sourceName := article.source,
      credibilityScore := source.credibilityScore, isPrimary := true, similarityScore := 1 }
  (story, { db1 with stories := db1.stories ++ [story],
                     storySources := db1.storySources ++ [row],
                     nextStoryId := db1.nextStoryId + 1 })

/-- `clusteringService.addArticleToStory(storyId, article, similarityScore)`:
find the story (error if absent), get-or-create the source, skip silently if
the source name is already linked to the story, otherwise create the row,
bump `sourceCount`, recompute diversity and average credibility from the rows,
save, and recompute the importance score. -/
def addArticleToStory (db : DB) (now : Int) (storyId : Nat) (article : Article)
    (similarityScore : ℚ) : Except String DB :=
  match db.stories.find? (fun t => decide (t.id = storyId)) with
  | none => Except.error "Story not found"
  | some story =>
    let sourceAndDb := getOrCreateSource db now article.source
    let source := sourceAndDb.1
    let db1 := sourceAndDb.2
    match db1.storySources.find?
        (fun r => decide (r.storyId = storyId) && decide (r.sourceName = article.source)) with
    | some _ => Except.ok db1
    | none =>
      let row : StorySource :=
        { storyId := storyId, articleId := article.id, sourceName := article.source,
          credibilityScore := source.credibilityScore, isPrimary := false,
          similarityScore := similarityScore }
      let db2 := { db1 with storySources := db1.storySources ++ [row] }
      let story1 :=
        { story with
          sourceCount := story.sourceCount + 1,
          lastUpdated := now,
          sourceDiversity := calculateSourceDiversity db2.storySources storyId,
          averageCredibility := calculateAverageCredibility db2.storySources storyId }
      let db3 := saveStory db2 story1
      Except.ok (recalculateImportance db3 now storyId)

/-- Outcome of processing one article in `clusterArticles`. -/
inductive ClusterOutcome
  | skipped
  | merged
  | created
  deriving Repr, DecidableEq

/-- The counters accumulated by `clusterArticles`. -/
structure ClusterResults where
  newStories : Nat
  mergedArticles : Nat
  skipped : Nat
  errors : Nat
  deriving Repr, DecidableEq

/-- The body of the `clusterArticles` loop's `try` block: skip an article that
is already linked (by `articleId`), else merge into the best matching story or
create a new one. -/
def tryClusterOne (db : DB) (now : Int) (article : Article) :
    Except String (DB × ClusterOutcome) :=
  match db.storySources.find? (fun r => decide (r.articleId = article.id)) with
  | some _ => Except.ok (db, ClusterOutcome.skipped)
  | none =>
    match findMatchingStory db now article with
    | some (story, score) =>
      (addArticleToStory db now story.id article score).map
        (fun db2 => (db2, ClusterOutcome.merged))
    | none => Except.ok ((createStoryFromArticle db now article).2, ClusterOutcome.created)

/-- Add one outcome to the counters. -/
def bumpResult : ClusterOutcome → ClusterResults → ClusterResults
  | ClusterOutcome.skipped, r => { r with skipped := r.skipped + 1 }
  | ClusterOutcome.merged, r => { r with mergedArticles := r.mergedArticles + 1 }
  | ClusterOutcome.created, r => { r with newStories := r.newStories + 1 }

/-- The sequential `for … of` loop of `clusterArticles` with its per-article
`try/catch`: a thrown error is counted and the loop continues with the next
article.  The loop body is a parameter so that the catch branch is populated;
`clusterArticles` instantiates it with `tryClusterOne`. -/
def clusterLoop (f : DB → Article → Except String (DB × ClusterOutcome)) :
    DB → List Article → DB × ClusterResults
  | db, [] => (db, ⟨0, 0, 0, 0⟩)
  | db, article :: rest =>
    match f db article with
    | Except.ok (db2, outcome) =>
      let res := clusterLoop f db2 rest
      (res.1, bumpResult outcome res.2)
    | Except.error _ =>
      let res := clusterLoop f db rest
      (res.1, { res.2 with errors := res.2.errors + 1 })

/-- `clusteringService.clusterArticles(articles)`. -/
def clusterArticles (db : DB) (now : Int) (articles : List Article) :
    DB × ClusterResults :=
  clusterLoop (fun d a => tryClusterOne d now a) db articles

/-! ### Context service (`contextService` in the brain/context module) -/

/-- The (shorter) stop-word list of `contextService.extractSignificantWords`. -/
def contextStopwords : List String :=
  ["the", "a", "an", "and", "or", "but", "in", "on", "at", "to", "for",
   "of", "with", "by", "from", "as", "is", "was", "are", "were", "been",
   "have", "has", "had", "will", "would", "could", "should", "said", "says"]

/-- The context stop words as character lists. -/
def contextStopData : List (List Char) := contextStopwords.map String.data

/-- `contextService.extractSignificantWords(text)`: lower-case, delete
punctuation, split on whitespace, keep words of length > 3 that are not in
the context stop-word list.  Returns a list (duplicates preserved). -/
def extractSignificantWords (text : String) : List (List Char) :=
  if text = "" then [] else
  (splitWs (removeNonWord (lowerChars text.data))).filter
    (fun w => w.length > 3 && ¬ contextStopData.contains w)

/-- `contextService.calculateRelevance(story1, story2)`: 0 across categories;
otherwise the intersection *list* (with multiplicity from `words1`) over the
union *set* of significant title words. -/
def calculateRelevance (story1 story2 : Story) : ℚ :=
  if ¬ story1.category = story2.category then 0 else
  let words1 := extractSignificantWords story1.canonicalTitle
  let words2 := extractSignificantWords story2.canonicalTitle
  let intersection := words1.filter (fun w => words2.contains w)
  let union := (words1 ++ words2).dedup
  if union.length = 0 then 0 else (intersection.length : ℚ) / (union.length : ℚ)

/-- `contextService.determineRelationship(current, related)`. -/
def determineRelationship (current related : Story) : String :=
  if related.firstSeen < current.firstSeen then "PRECEDES"
  else if current.firstSeen < related.firstSeen then "FOLLOWS"
  else "RELATED"

/-- One timeline entry produced by `buildTimeline`. -/
structure TimelineEntry where
  date : Int
  title : String
  storyId : Nat
  relevanceScore : ℚ
  relationship : String
  deriving Repr, DecidableEq

/-- The result of `buildTimeline`. -/
structure TimelineResult where
  currentStoryId : Nat
  timeline : List TimelineEntry
  totalRelated : Nat
  deriving Repr, DecidableEq

/-- Sort key of `.sort({ firstSeen: -1 })` on stories. -/
def storyDateGE (a b : Story) : Prop := b.firstSeen ≤ a.firstSeen

instance : DecidableRel storyDateGE := fun a b => by
  unfold storyDateGE
  infer_instance

instance : IsTotal Story storyDateGE :=
  ⟨fun a b => (Int.le_total b.firstSeen a.firstSeen).imp id id⟩

instance : IsTrans Story storyDateGE :=
  ⟨fun _ _ _ hab hbc => le_trans hbc hab⟩

/-- Sort key of `timelineEntries.sort((a, b) => b.date - a.date)`. -/
def entryDateGE (a b : TimelineEntry) : Prop := b.date ≤ a.date

instance : DecidableRel entryDateGE := fun a b => by
  unfold entryDateGE
  infer_instance

instance : IsTotal TimelineEntry entryDateGE :=
  ⟨fun a b => (Int.le_total b.date a.date).imp id id⟩

instance : IsTrans TimelineEntry entryDateGE :=
  ⟨fun _ _ _ hab hbc => le_trans hbc hab⟩

/-- `contextService.buildTimeline(storyId, days = 30)`: candidate stories are
the same-category stories with `firstSeen` in `[now − days, story.firstSeen)`
other than the story itself, sorted by `firstSeen` descending and capped by
`.limit(10)`; entries with relevance > 0.3 are kept, sorted by date
descending; the top 5 are returned with `totalRelated` the number of kept
entries. -/
def buildTimeline (db : DB) (now : Int) (storyId : Nat) (days : Nat) :
    Option TimelineResult :=
  match db.stories.find? (fun t => decide (t.id = storyId)) with
  | none => none
  | some story =>
    let cutoff := now - (days : Int) * 24 * 60 * 60 * 1000
    let relatedStories :=
      (List.insertionSort storyDateGE
        (db.stories.filter
          (fun s => decide (¬ s.id = storyId) && decide (s.category = story.category) &&
            decide (cutoff ≤ s.firstSeen) && decide (s.firstSeen < story.firstSeen)))).take 10
    let timelineEntries :=
      (relatedStories.filter
        (fun related => decide (((3 : ℚ)/10) < calculateRelevance story related))).map
        (fun related =>
          { date := related.firstSeen, title := related.canonicalTitle,
            storyId := related.id,
            relevanceScore := calculateRelevance story related,
            relationship := determineRelationship story related })
    let sortedEntries := List.insertionSort entryDateGE timelineEntries
    some { currentStoryId := story.id, timeline := sortedEntries.take 5,
           totalRelated := sortedEntries.length }

/-! ### Definitions written from the specification's words

These are *not* translations of the source; they state what the
specification's sentences describe, for comparison with the code. -/

/-- The §4.4 `score()` of the specification: the weighted sum of the four
components, rounded to 3 decimal places (no falsy coercion of the inputs). -/
def specImportanceScore (story : Story) (now : Int) : ℚ :=
  round3 ((30/100) * min ((story.sourceCount : ℚ) / 10) 1 +
    (25/100) * story.sourceDiversity +
    (25/100) * story.averageCredibility +
    (20/100) * max 0 (1 - (((now - story.firstSeen : ℤ) : ℚ) / (1000 * 60 * 60)) / 24))

/-- 3-word phrases per the specification's words for `titleSimilarity`:
"found by sliding a 3-token window over each lowercased title" — over all
whitespace tokens, with no token-length filter. -/
def specRawPhrases (text : List Char) (n : Nat) : List (List Char) :=
  let words := splitWs text
  (List.range (words.length + 1 - n)).map
    (fun i => List.intercalate [' '] ((words.drop i).take n))

/-- `titleSimilarity` per the specification's words: word similarity plus
`min(0.3, 0.1 × number of shared 3-word phrases)` over the raw token windows,
clamped to 1. -/
def specTitleSimilarity (title1 title2 : String) : ℚ :=
  let phrases1 := specRawPhrases (lowerChars title1.data) 3
  let phrases2 := specRawPhrases (lowerChars title2.data) 3
  let shared := (phrases1.filter (fun p => phrases2.contains p)).length
  min (calculateSimilarity title1 title2 + min ((3 : ℚ)/10) ((shared : ℚ) * (1/10))) 1

/-! ### Helper lemmas -/

lemma mathMin_eq_min (a b : ℚ) : mathMin a b = min a b := by
  rw [mathMin, min_def]

lemma mathMax_eq_max (a b : ℚ) : mathMax a b = max a b := by
  rw [mathMax, max_def]

lemma mathMin_le_right (a b : ℚ) : mathMin a b ≤ b := by
  unfold mathMin
  split
  · assumption
  · exact le_rfl

lemma mathMin_nonneg {a b : ℚ} (ha : 0 ≤ a) (hb : 0 ≤ b) : 0 ≤ mathMin a b := by
  unfold mathMin
  split
  · exact ha
  · exact hb

lemma mathMax_le {a b c : ℚ} (ha : a ≤ c) (hb : b ≤ c) : mathMax a b ≤ c := by
  unfold mathMax
  split
  · exact hb
  · exact ha

lemma mathMax_zero_nonneg (x : ℚ) : 0 ≤ mathMax 0 x := by
  unfold mathMax
  split
  · assumption
  · exact le_rfl

lemma mathMax_zero_of_nonpos {x : ℚ} (h : x ≤ 0) : mathMax 0 x = 0 := by
  unfold mathMax
  split
  · exact le_antisymm h (by assumption)
  · rfl

lemma round3_nonneg {q : ℚ} (h : 0 ≤ q) : 0 ≤ round3 q := by
  unfold round3
  have h0 : (0 : ℚ) ≤ q * 1000 + 1/2 := by
    have := mul_nonneg h (by norm_num : (0 : ℚ) ≤ 1000)
    linarith
  have h1 : (0 : ℤ) ≤ ⌊q * 1000 + 1/2⌋ := Int.floor_nonneg.mpr h0
  have h2 : (0 : ℚ) ≤ ((⌊q * 1000 + 1/2⌋ : ℤ) : ℚ) := by exact_mod_cast h1
  positivity

lemma round3_le_one {q : ℚ} (h : q ≤ 1) : round3 q ≤ 1 := by
  unfold round3
  have h1 : ⌊q * 1000 + 1/2⌋ ≤ 1000 := by
    have hq : q * 1000 + 1/2 ≤ 1000 + 1/2 := by nlinarith
    calc ⌊q * 1000 + 1/2⌋ ≤ ⌊(1000 : ℚ) + 1/2⌋ := Int.floor_le_floor hq
      _ = 1000 := by norm_num
  rw [div_le_one (by norm_num : (0 : ℚ) < 1000)]
  exact_mod_cast h1

/-! ### C2 — the calm ranking formula -/

/-- A story with `averageCredibility = 0` — the JS falsy default replaces it
by `0.5`. -/
def c2story : Story :=
  { id := 1, canonicalTitle := "t", category := "general", mood := "neutral",
    sourceCount := 1, sourceDiversity := 0, averageCredibility := 0,
    importanceScore := 0, firstSeen := 0, lastUpdated := 0 }

/-- A story first seen 120 hours in the future: the recency term exceeds 1 and
so does the resulting score. -/
def c2storyFuture : Story :=
  { id := 2, canonicalTitle := "t", category := "general", mood := "neutral",
    sourceCount := 10, sourceDiversity := 1, averageCredibility := 1,
    importanceScore := 0, firstSeen := 432000000, lastUpdated := 0 }

/-- C2, counterexample: on a story with `averageCredibility = 0` (which is in
`[0,1]`) the code returns `0.355` — `0.25 × 0.5` is contributed for the zero
credibility via the falsy default — while the claimed formula gives `0.23`;
and on a story first seen in the future (all weights in `[0,1]`) the code
returns `2`, outside `[0,1]`. -/
theorem c2_counterexample :
    calculateImportanceScore c2story 0 = 71/200 ∧
    specImportanceScore c2story 0 = 23/100 ∧
    ¬ calculateImportanceScore c2story 0 = specImportanceScore c2story 0 ∧
    0 ≤ c2story.sourceDiversity ∧ c2story.sourceDiversity ≤ 1 ∧
    0 ≤ c2story.averageCredibility ∧ c2story.averageCredibility ≤ 1 ∧
    calculateImportanceScore c2storyFuture 0 = 2 ∧
    0 ≤ c2storyFuture.sourceDiversity ∧ c2storyFuture.sourceDiversity ≤ 1 ∧
    0 ≤ c2storyFuture.averageCredibility ∧ c2storyFuture.averageCredibility ≤ 1 ∧
    ¬ calculateImportanceScore c2storyFuture 0 ≤ 1 := by
  refine ⟨by with_unfolding_all rfl, by with_unfolding_all rfl, ?_,
    by norm_num [c2story], by norm_num [c2story], by norm_num [c2story],
    by norm_num [c2story], by with_unfolding_all rfl,
    by norm_num [c2storyFuture], by norm_num [c2storyFuture],
    by norm_num [c2storyFuture], by norm_num [c2storyFuture], ?_⟩
  · rw [show calculateImportanceScore c2story 0 = 71/200 from by with_unfolding_all rfl,
      show specImportanceScore c2story 0 = 23/100 from by with_unfolding_all rfl]
    norm_num
  · rw [show calculateImportanceScore c2storyFuture 0 = 2 from by with_unfolding_all rfl]
    norm_num

/-- C2, amended: for a story whose `averageCredibility` is in `(0,1]` (the
code coerces a credibility of exactly 0 to 0.5), whose `sourceDiversity` is in
`[0,1]` and whose `firstSeen` is not in the future, the calm ranking score is
exactly the §4.4 formula rounded to 3 decimal places and lies in `[0,1]`; the
recency component is 1 at age 0, 1/2 at 12 hours, 0 at or beyond 24 hours, and
never negative. -/
theorem c2_amended (story : Story) (now : Int)
    (hd0 : 0 ≤ story.sourceDiversity) (hd1 : story.sourceDiversity ≤ 1)
    (hc0 : 0 < story.averageCredibility) (hc1 : story.averageCredibility ≤ 1)
    (hage : story.firstSeen ≤ now) :
    calculateImportanceScore story now = specImportanceScore story now ∧
    0 ≤ calculateImportanceScore story now ∧
    calculateImportanceScore story now ≤ 1 ∧
    recencyScore story.firstSeen story.firstSeen = 1 ∧
    recencyScore story.firstSeen (story.firstSeen + 12 * 60 * 60 * 1000) = 1/2 ∧
    (∀ t : Int, story.firstSeen + 24 * 60 * 60 * 1000 ≤ t →
      recencyScore story.firstSeen t = 0) ∧
    (∀ t : Int, 0 ≤ recencyScore story.firstSeen t) := by
  have hcne : ¬ story.averageCredibility = 0 := ne_of_gt hc0
  have hrec0 : 0 ≤ recencyScore story.firstSeen now := mathMax_zero_nonneg _
  have hrec1 : recencyScore story.firstSeen now ≤ 1 := by
    unfold recencyScore
    apply mathMax_le (by norm_num)
    have hd : (0 : ℚ) ≤ ((now - story.firstSeen : ℤ) : ℚ) := by
      exact_mod_cast Int.sub_nonneg.mpr hage
    have : (0 : ℚ) ≤ (((now - story.firstSeen : ℤ) : ℚ) / (1000 * 60 * 60)) / 24 := by
      positivity
    linarith
  have hsrc0 : 0 ≤ mathMin ((story.sourceCount : ℚ) / 10) 1 :=
    mathMin_nonneg (by positivity) (by norm_num)
  have hsrc1 : mathMin ((story.sourceCount : ℚ) / 10) 1 ≤ 1 := mathMin_le_right _ _
  constructor
  · simp only [calculateImportanceScore, specImportanceScore, recencyScore,
      mathMin_eq_min, mathMax_eq_max, if_neg hcne]
    by_cases hd : story.sourceDiversity = 0
    · rw [if_pos hd, hd]
      congr 1
      ring
    · rw [if_neg hd]
      congr 1
      ring
  refine ⟨?_, ?_, ?_, ?_, ?_, ?_⟩
  · apply round3_nonneg
    have h1 := mul_nonneg hsrc0 (by norm_num : (0:ℚ) ≤ 30/100)
    have h2 : 0 ≤ (if story.sourceDiversity = 0 then 0 else story.sourceDiversity) := by
      split
      · exact le_rfl
      · exact hd0
    have h2' := mul_nonneg h2 (by norm_num : (0:ℚ) ≤ 25/100)
    have h3 : (0:ℚ) ≤ (if story.averageCredibility = 0 then (5:ℚ)/10
        else story.averageCredibility) := by
      rw [if_neg hcne]
      exact le_of_lt hc0
    have h3' := mul_nonneg h3 (by norm_num : (0:ℚ) ≤ 25/100)
    have h4' := mul_nonneg hrec0 (by norm_num : (0:ℚ) ≤ 20/100)
    linarith
  · apply round3_le_one
    have h1 := mul_le_of_le_one_left (by norm_num : (0:ℚ) ≤ 30/100) hsrc1
    have h2 : (if story.sourceDiversity = 0 then 0 else story.sourceDiversity) ≤ 1 := by
      split
      · norm_num
      · exact hd1
    have h2' := mul_le_of_le_one_left (by norm_num : (0:ℚ) ≤ 25/100) h2
    have h3 : (if story.averageCredibility = 0 then (5:ℚ)/10
        else story.averageCredibility) ≤ 1 := by
      rw [if_neg hcne]
      exact hc1
    have h3' := mul_le_of_le_one_left (by norm_num : (0:ℚ) ≤ 25/100) h3
    have h4' := mul_le_of_le_one_left (by norm_num : (0:ℚ) ≤ 20/100) hrec1
    linarith
  · unfold recencyScore mathMax
    norm_num
  · unfold recencyScore
    rw [show (story.firstSeen + 12 * 60 * 60 * 1000 - story.firstSeen : ℤ)
        = 43200000 from by ring]
    unfold mathMax
    norm_num
  · intro t ht
    unfold recencyScore
    apply mathMax_zero_of_nonpos
    have h24 : (86400000 : ℚ) ≤ ((t - story.firstSeen : ℤ) : ℚ) := by
      exact_mod_cast Int.le_sub_left_of_add_le (by linarith [ht] : story.firstSeen + 86400000 ≤ t)
    have : (24 : ℚ) ≤ (((t - story.firstSeen : ℤ) : ℚ) / (1000 * 60 * 60)) / 24 * 24 := by
      rw [div_mul_cancel₀ _ (by norm_num : (24:ℚ) ≠ 0)]
      rw [le_div_iff₀ (by norm_num : (0:ℚ) < 1000 * 60 * 60)]
      linarith
    nlinarith
  · intro t
    exact mathMax_zero_nonneg _

/-- A well-behaved story exercising the hypotheses of the amended C2. -/
def c2wstory : Story :=
  { id := 3, canonicalTitle := "w", category := "general", mood := "neutral",
    sourceCount := 3, sourceDiversity := 1/2, averageCredibility := 4/5,
    importanceScore := 0, firstSeen := 0, lastUpdated := 0 }

/-- C2, witness: the amended theorem applied to a concrete story. -/
theorem c2_witness :
    calculateImportanceScore c2wstory 0 = specImportanceScore c2wstory 0 ∧
    0 ≤ calculateImportanceScore c2wstory 0 ∧
    calculateImportanceScore c2wstory 0 ≤ 1 ∧
    recencyScore c2wstory.firstSeen c2wstory.firstSeen = 1 ∧
    recencyScore c2wstory.firstSeen (c2wstory.firstSeen + 12 * 60 * 60 * 1000) = 1/2 ∧
    (∀ t : Int, c2wstory.firstSeen + 24 * 60 * 60 * 1000 ≤ t →
      recencyScore c2wstory.firstSeen t = 0) ∧
    (∀ t : Int, 0 ≤ recencyScore c2wstory.firstSeen t) :=
  c2_amended c2wstory 0 (by norm_num [c2wstory]) (by norm_num [c2wstory])
    (by norm_num [c2wstory]) (by norm_num [c2wstory]) (by norm_num [c2wstory])

/-! ### C3 — the title-similarity gate in article similarity -/

/-- C3: when the title similarity is below 0.3 the article similarity is
exactly 0 whatever the contents are; otherwise it is
`0.6 × titleSim + 0.4 × wordSimilarity(description+content)`. -/
theorem c3_title_gate (article1 article2 : Article) :
    (calculateTitleSimilarity article1.title article2.title < 3/10 →
      calculateArticleSimilarity article1 article2 = 0) ∧
    (¬ calculateTitleSimilarity article1.title article2.title < 3/10 →
      calculateArticleSimilarity article1 article2 =
        (6/10) * calculateTitleSimilarity article1.title article2.title +
        (4/10) * calculateSimilarity
          (article1.description ++ " " ++ article1.content)
          (article2.description ++ " " ++ article2.content)) := by
  constructor
  · intro h
    simp only [calculateArticleSimilarity]
    rw [if_pos h]
  · intro h
    simp only [calculateArticleSimilarity]
    rw [if_neg h]

/-- C3 witness data: two articles with unrelated single-word titles. -/
def c3articleA : Article :=
  { id := 1, title := "aaaa", description := "", content := "",
    source := "", category := "", mood := "", publishedAt := 0 }

/-- C3 witness data: the second article. -/
def c3articleB : Article :=
  { id := 2, title := "bbbb", description := "", content := "",
    source := "", category := "", mood := "", publishedAt := 0 }

/-- C3, witness: both branches of the gate exercised on concrete articles. -/
theorem c3_witness :
    (calculateTitleSimilarity c3articleA.title c3articleB.title < 3/10 ∧
      calculateArticleSimilarity c3articleA c3articleB = 0) ∧
    (¬ calculateTitleSimilarity c3articleA.title c3articleA.title < 3/10 ∧
      calculateArticleSimilarity c3articleA c3articleA =
        (6/10) * calculateTitleSimilarity c3articleA.title c3articleA.title +
        (4/10) * calculateSimilarity
          (c3articleA.description ++ " " ++ c3articleA.content)
          (c3articleA.description ++ " " ++ c3articleA.content)) := by
  have hlt : calculateTitleSimilarity c3articleA.title c3articleB.title < 3/10 := by
    rw [show calculateTitleSimilarity c3articleA.title c3articleB.title = 0 from
      by with_unfolding_all rfl]
    norm_num
  have hge : ¬ calculateTitleSimilarity c3articleA.title c3articleA.title < 3/10 := by
    rw [show calculateTitleSimilarity c3articleA.title c3articleA.title = 1 from
      by with_unfolding_all rfl]
    norm_num
  exact ⟨⟨hlt, (c3_title_gate c3articleA c3articleB).1 hlt⟩,
    ⟨hge, (c3_title_gate c3articleA c3articleA).2 hge⟩⟩

/-! ### C8 — title similarity and the phrase bonus -/

/-- C8 counterexample data: the shared phrase run is interrupted by the
2-character token `in`, which the code drops before windowing. -/
def c8title1 : String := "big tax cut in new plan"

/-- C8 counterexample data: the second title. -/
def c8title2 : String := "huge tax cut in new plan"

/-- C8, counterexample: over raw 3-token windows the titles share 3 phrases
(bonus capped at 0.3, total 0.8), but the code first removes tokens of length
≤ 2, shares only 2 windows and returns 0.7. -/
theorem c8_counterexample :
    calculateTitleSimilarity c8title1 c8title2 = 7/10 ∧
    specTitleSimilarity c8title1 c8title2 = 4/5 ∧
    ¬ calculateTitleSimilarity c8title1 c8title2 =
        specTitleSimilarity c8title1 c8title2 := by
  refine ⟨by with_unfolding_all rfl, by with_unfolding_all rfl, ?_⟩
  rw [show calculateTitleSimilarity c8title1 c8title2 = 7/10 from by with_unfolding_all rfl,
    show specTitleSimilarity c8title1 c8title2 = 4/5 from by with_unfolding_all rfl]
  norm_num

/-- C8, amended: title similarity is word similarity plus
`min(0.3, 0.1 × number of shared 3-word phrases)` clamped to 1, where the
3-word phrases are windows over the lowercased title's whitespace tokens of
length ≥ 3 (tokens of 1–2 characters are dropped before windowing), shared
phrases counted with multiplicity over the first title's phrase list. -/
theorem c8_amended (title1 title2 : String) :
    calculateTitleSimilarity title1 title2 =
      min (calculateSimilarity title1 title2 +
        min ((3 : ℚ)/10)
          (((extractPhrases (lowerChars title1.data) 3).countP
              (fun p => (extractPhrases (lowerChars title2.data) 3).contains p) : ℚ)
            * (1/10))) 1 ∧
    calculateTitleSimilarity title1 title2 ≤ 1 := by
  have heq : calculateTitleSimilarity title1 title2 =
      min (calculateSimilarity title1 title2 +
        min ((3 : ℚ)/10)
          (((extractPhrases (lowerChars title1.data) 3).countP
              (fun p => (extractPhrases (lowerChars title2.data) 3).contains p) : ℚ)
            * (1/10))) 1 := by
    simp only [calculateTitleSimilarity, mathMin_eq_min, List.countP_eq_length_filter]
    rw [min_comm ((3 : ℚ)/10)]
  refine ⟨heq, ?_⟩
  rw [heq]
  exact min_le_right _ _

/-! ### C7 — source diversity -/

lemma lookup_mem_assoc {l : List (String × String)} {k v : String}
    (h : l.lookup k = some v) : (k, v) ∈ l := by
  induction l with
  | nil => simp [List.lookup] at h
  | cons p t ih =>
    rcases p with ⟨a, b⟩
    simp only [List.lookup] at h
    rcases hk : (k == a) with _ | _
    · rw [hk] at h
      exact List.mem_cons_of_mem _ (ih h)
    · rw [hk] at h
      have hka : k = a := eq_of_beq hk
      have hbv : b = v := by
        injection h
      rw [hka, hbv]
      exact List.mem_cons_self _ _

lemma dedup_length_one_of_all_eq {l : List String} {c : String} (hne : l ≠ [])
    (hall : ∀ x ∈ l, x = c) : l.dedup.length = 1 := by
  have htf : l.toFinset = {c} := by
    ext a
    simp only [List.mem_toFinset, Finset.mem_singleton]
    constructor
    · exact fun ha => hall a ha
    · intro ha
      rcases l with _ | ⟨x, t⟩
      · exact absurd rfl hne
      · have := hall x (List.mem_cons_self _ _)
        rw [ha, ← this]
        exact List.mem_cons_self _ _
  rw [← List.card_toFinset, htf, Finset.card_singleton]

/-- C7: source diversity is in `[0,1]`, equals the number of distinct
categories of the linked source names (via the static table, unknown names
mapping to `other`) divided by 6 and capped at 1, each category being one of
the six fixed ones; a story with at least one linked source all of whose
sources fall in one category has diversity exactly `1/6`. -/
theorem c7_source_diversity (rows : List StorySource) (storyId : Nat) :
    0 ≤ calculateSourceDiversity rows storyId ∧
    calculateSourceDiversity rows storyId ≤ 1 ∧
    (∀ name : String, sourceCategoryOf name ∈
      (["wire", "public", "cable", "newspaper", "tech", "other"] : List String)) ∧
    calculateSourceDiversity rows storyId =
      min ((((rows.filter (fun r => decide (r.storyId = storyId))).map
        (fun r => sourceCategoryOf r.sourceName)).toFinset.card : ℚ) / 6) 1 ∧
    (∀ c : String,
      (∃ r ∈ rows, r.storyId = storyId) →
      (∀ r ∈ rows, r.storyId = storyId → sourceCategoryOf r.sourceName = c) →
      calculateSourceDiversity rows storyId = 1/6) := by
  refine ⟨?_, ?_, ?_, ?_, ?_⟩
  · unfold calculateSourceDiversity
    exact mathMin_nonneg (by positivity) (by norm_num)
  · unfold calculateSourceDiversity
    exact mathMin_le_right _ _
  · intro name
    unfold sourceCategoryOf
    rcases h : sourceCategories.lookup name with _ | v
    · simp
    · have hv : ∀ p ∈ sourceCategories, p.2 ∈
          (["wire", "public", "cable", "newspaper", "tech", "other"] : List String) := by
        decide
      have := hv (name, v) (lookup_mem_assoc h)
      simpa using this
  · have htf : ((((rows.filter (fun r => decide (r.storyId = storyId))).map
        (fun r => r.sourceName)).dedup.map sourceCategoryOf).toFinset : Finset String) =
        (((rows.filter (fun r => decide (r.storyId = storyId))).map
          (fun r => sourceCategoryOf r.sourceName)).toFinset : Finset String) := by
      ext a
      simp only [List.mem_toFinset, List.mem_map, List.mem_dedup,
        exists_exists_and_eq_and]
    have hlen : (((rows.filter (fun r => decide (r.storyId = storyId))).map
        (fun r => r.sourceName)).dedup.map sourceCategoryOf).dedup.length =
        (((rows.filter (fun r => decide (r.storyId = storyId))).map
          (fun r => sourceCategoryOf r.sourceName)).toFinset : Finset String).card := by
      rw [← List.card_toFinset, htf]
    simp only [calculateSourceDiversity]
    rw [mathMin_eq_min, hlen]
  · intro c hex hall
    simp only [calculateSourceDiversity]
    have hne : ((rows.filter (fun r => decide (r.storyId = storyId))).map
        (fun r => r.sourceName)).dedup ≠ [] := by
      rcases hex with ⟨r, hrmem, hrid⟩
      have : r.sourceName ∈ ((rows.filter (fun r => decide (r.storyId = storyId))).map
          (fun r => r.sourceName)) := by
        exact List.mem_map_of_mem _ (List.mem_filter.mpr ⟨hrmem, by simpa using hrid⟩)
      intro hcon
      rw [← List.mem_dedup] at this
      rw [hcon] at this
      simp at this
    have hmapne : (((rows.filter (fun r => decide (r.storyId = storyId))).map
        (fun r => r.sourceName)).dedup.map sourceCategoryOf) ≠ [] := by
      intro hcon
      exact hne (List.map_eq_nil_iff.mp hcon)
    have hallc : ∀ x ∈ (((rows.filter (fun r => decide (r.storyId = storyId))).map
        (fun r => r.sourceName)).dedup.map sourceCategoryOf), x = c := by
      intro x hx
      rcases List.mem_map.mp hx with ⟨n, hn, hxc⟩
      rw [List.mem_dedup] at hn
      rcases List.mem_map.mp hn with ⟨r, hr, hrn⟩
      rcases List.mem_filter.mp hr with ⟨hrmem, hrid⟩
      rw [← hxc, ← hrn]
      exact hall r hrmem (by simpa using hrid)
    rw [dedup_length_one_of_all_eq hmapne hallc]
    norm_num [mathMin]

/-- C7 witness data: two wire-service rows of the same story. -/
def c7rows : List StorySource :=
  [{ storyId := 1, articleId := 1, sourceName := "Reuters",
     credibilityScore := 19/20, isPrimary := true, similarityScore := 1 },
   { storyId := 1, articleId := 2, sourceName := "AP",
     credibilityScore := 19/20, isPrimary := false, similarityScore := 7/10 }]

/-- C7, witness: both wire rows yield diversity exactly `1/6`, inside `[0,1]`. -/
theorem c7_witness :
    0 ≤ calculateSourceDiversity c7rows 1 ∧
    calculateSourceDiversity c7rows 1 ≤ 1 ∧
    (∃ r ∈ c7rows, r.storyId = 1) ∧
    (∀ r ∈ c7rows, r.storyId = 1 → sourceCategoryOf r.sourceName = "wire") ∧
    calculateSourceDiversity c7rows 1 = 1/6 := by
  have h := c7_source_diversity c7rows 1
  have hex : ∃ r ∈ c7rows, r.storyId = 1 := by decide
  have hall : ∀ r ∈ c7rows, r.storyId = 1 → sourceCategoryOf r.sourceName = "wire" := by
    decide
  exact ⟨h.1, h.2.1, hex, hall, h.2.2.2.2 "wire" hex hall⟩

/-! ### C10 — batch clustering counts and partial-failure isolation -/

lemma clusterLoop_sum (f : DB → Article → Except String (DB × ClusterOutcome)) :
    ∀ (articles : List Article) (db : DB),
      (clusterLoop f db articles).2.newStories +
      (clusterLoop f db articles).2.mergedArticles +
      (clusterLoop f db articles).2.skipped +
      (clusterLoop f db articles).2.errors = articles.length := by
  intro articles
  induction articles with
  | nil => intro db; rfl
  | cons a rest ih =>
    intro db
    simp only [clusterLoop]
    cases hf : f db a with
    | ok p =>
      rcases p with ⟨db2, outcome⟩
      have := ih db2
      cases outcome <;>
        simp only [bumpResult] <;>
        simp only [List.length_cons] <;>
        omega
    | error e =>
      have := ih db
      simp only [List.length_cons]
      omega

/-- C10: the four counters of `clusterArticles` always sum to the number of
input articles, and — for an arbitrary loop body — an article whose processing
throws adds exactly one to `errors` and leaves the processing of the remaining
articles (state and outcomes) unchanged. -/
theorem c10_batch_counts :
    (∀ (db : DB) (now : Int) (articles : List Article),
      (clusterArticles db now articles).2.newStories +
      (clusterArticles db now articles).2.mergedArticles +
      (clusterArticles db now articles).2.skipped +
      (clusterArticles db now articles).2.errors = articles.length) ∧
    (∀ (f : DB → Article → Except String (DB × ClusterOutcome)) (db : DB) (e : String)
        (article : Article) (rest : List Article),
      f db article = Except.error e →
      clusterLoop f db (article :: rest) =
        ((clusterLoop f db rest).1,
         { (clusterLoop f db rest).2 with
            errors := (clusterLoop f db rest).2.errors + 1 })) := by
  constructor
  · intro db now articles
    exact clusterLoop_sum _ articles db
  · intro f db e article rest hf
    simp only [clusterLoop, hf]

/-- C10 witness data: one well-formed article. -/
def c10article : Article :=
  { id := 1, title := "t", description := "", content := "",
    source := "Reuters", category := "general", mood := "neutral", publishedAt := 0 }

/-- C10 witness data: the empty store. -/
def c10db : DB := { stories := [], storySources := [], sources := [], nextStoryId := 1 }

/-- C10 witness data: a loop body that always throws. -/
def c10fail : DB → Article → Except String (DB × ClusterOutcome) :=
  fun _ _ => Except.error "boom"

/-- C10, witness: counters sum to the batch length on a concrete batch, and a
throwing body is counted as exactly one error. -/
theorem c10_witness :
    (clusterArticles c10db 0 [c10article]).2.newStories +
      (clusterArticles c10db 0 [c10article]).2.mergedArticles +
      (clusterArticles c10db 0 [c10article]).2.skipped +
      (clusterArticles c10db 0 [c10article]).2.errors = 1 ∧
    c10fail c10db c10article = Except.error "boom" ∧
    clusterLoop c10fail c10db [c10article] =
      ((clusterLoop c10fail c10db []).1,
       { (clusterLoop c10fail c10db []).2 with
          errors := (clusterLoop c10fail c10db []).2.errors + 1 }) :=
  ⟨c10_batch_counts.1 c10db 0 [c10article], rfl,
    c10_batch_counts.2 c10fail c10db "boom" c10article [] rfl⟩

/-! ### C6 — idempotent ingestion by articleId -/

/-- C6: an article that already has a `StorySource` row (matched by
`articleId`) is a terminal no-op for `clusterArticles`: the body returns the
store unchanged with outcome `skipped`, and in a batch the article adds
exactly one to `skipped` and changes nothing else. -/
theorem c6_idempotent (db : DB) (now : Int) (article : Article) (articles : List Article)
    (h : ∃ r ∈ db.storySources, r.articleId = article.id) :
    tryClusterOne db now article = Except.ok (db, ClusterOutcome.skipped) ∧
    clusterArticles db now (article :: articles) =
      ((clusterArticles db now articles).1,
       { (clusterArticles db now articles).2 with
          skipped := (clusterArticles db now articles).2.skipped + 1 }) := by
  have hfind : (db.storySources.find? (fun r => decide (r.articleId = article.id))).isSome := by
    rw [List.find?_isSome]
    rcases h with ⟨r, hr, hid⟩
    exact ⟨r, hr, by simpa using hid⟩
  rcases Option.isSome_iff_exists.mp hfind with ⟨r, hr⟩
  have h1 : tryClusterOne db now article = Except.ok (db, ClusterOutcome.skipped) := by
    simp only [tryClusterOne, hr]
  refine ⟨h1, ?_⟩
  simp only [clusterArticles, clusterLoop, h1]
  rfl

/-- C6 witness data: a row already linking article 5. -/
def c6row : StorySource :=
  { storyId := 1, articleId := 5, sourceName := "Reuters",
    credibilityScore := 19/20, isPrimary := true, similarityScore := 1 }

/-- C6 witness data: a store already containing `c6row`. -/
def c6db : DB :=
  { stories := [], storySources := [c6row], sources := [], nextStoryId := 2 }

/-- C6 witness data: the already-ingested article (same `articleId` 5). -/
def c6article : Article :=
  { id := 5, title := "t", description := "", content := "",
    source := "BBC", category := "general", mood := "neutral", publishedAt := 0 }

/-- C6, witness: the idempotence theorem applied to a concrete store. -/
theorem c6_witness :
    (∃ r ∈ c6db.storySources, r.articleId = c6article.id) ∧
    tryClusterOne c6db 0 c6article = Except.ok (c6db, ClusterOutcome.skipped) ∧
    clusterArticles c6db 0 [c6article] =
      ((clusterArticles c6db 0 []).1,
       { (clusterArticles c6db 0 []).2 with
          skipped := (clusterArticles c6db 0 []).2.skipped + 1 }) := by
  have h : ∃ r ∈ c6db.storySources, r.articleId = c6article.id :=
    ⟨c6row, List.mem_cons_self _ _, rfl⟩
  have h2 := c6_idempotent c6db 0 c6article [] h
  exact ⟨h, h2.1, h2.2⟩

/-! ### C5 — one StorySource per (storyId, sourceName) -/

lemma getOrCreateSource_stories (db : DB) (now : Int) (n : String) :
    (getOrCreateSource db now n).2.stories = db.stories := by
  unfold getOrCreateSource
  split <;> rfl

lemma getOrCreateSource_storySources (db : DB) (now : Int) (n : String) :
    (getOrCreateSource db now n).2.storySources = db.storySources := by
  unfold getOrCreateSource
  split <;> rfl

lemma recalculateImportance_storySources (db : DB) (now : Int) (i : Nat) :
    (recalculateImportance db now i).storySources = db.storySources := by
  unfold recalculateImportance
  split <;> rfl

lemma saveStory_storySources (db : DB) (s : Story) :
    (saveStory db s).storySources = db.storySources := rfl

/-- C5: `addArticleToStory` preserves the at-most-one-row-per
`(storyId, sourceName)` invariant, and when the article's source name is
already linked to the story the call succeeds as a silent skip: no row is
created and the stories (hence `sourceCount`, `sourceDiversity`,
`averageCredibility` and `importanceScore`) are untouched. -/
theorem c5_source_uniqueness (db : DB) (now : Int) (storyId : Nat) (article : Article)
    (simScore : ℚ) :
    (List.Pairwise (fun r1 r2 => ¬ (r1.storyId = r2.storyId ∧ r1.sourceName = r2.sourceName))
        db.storySources →
      ∀ db2, addArticleToStory db now storyId article simScore = Except.ok db2 →
        List.Pairwise (fun r1 r2 => ¬ (r1.storyId = r2.storyId ∧ r1.sourceName = r2.sourceName))
          db2.storySources) ∧
    ((∃ r ∈ db.storySources, r.storyId = storyId ∧ r.sourceName = article.source) →
      (db.stories.find? (fun t => decide (t.id = storyId))).isSome →
      ∃ db2, addArticleToStory db now storyId article simScore = Except.ok db2 ∧
        db2.stories = db.stories ∧ db2.storySources = db.storySources) := by
  constructor
  · intro hpw db2 hok
    unfold addArticleToStory at hok
    split at hok
    · exact absurd hok (by simp)
    · dsimp only at hok
      split at hok
      · have hdb : (getOrCreateSource db now article.source).2 = db2 := by
          injection hok
        rw [← hdb, getOrCreateSource_storySources]
        exact hpw
      · rename_i hguard
        injection hok with h
        rw [← h, recalculateImportance_storySources, saveStory_storySources]
        dsimp only
        rw [List.pairwise_append]
        refine ⟨by rwa [getOrCreateSource_storySources], List.pairwise_singleton _ _, ?_⟩
        intro a ha b hb
        rw [List.mem_singleton] at hb
        subst hb
        rw [getOrCreateSource_storySources] at ha
        have hnone := List.find?_eq_none.mp hguard
        have hna := hnone a (by rwa [getOrCreateSource_storySources])
        intro hcon
        apply hna
        rcases hcon with ⟨h1, h2⟩
        simp only [h1, h2] at *
        simp
  · intro hex hsome
    rcases Option.isSome_iff_exists.mp hsome with ⟨story, hfind⟩
    have hguard : ((getOrCreateSource db now article.source).2.storySources.find?
        (fun r => decide (r.storyId = storyId) && decide (r.sourceName = article.source))).isSome := by
      rw [getOrCreateSource_storySources, List.find?_isSome]
      rcases hex with ⟨r, hr, h1, h2⟩
      exact ⟨r, hr, by simp [h1, h2]⟩
    rcases Option.isSome_iff_exists.mp hguard with ⟨r0, hr0⟩
    refine ⟨(getOrCreateSource db now article.source).2, ?_,
      getOrCreateSource_stories db now article.source,
      getOrCreateSource_storySources db now article.source⟩
    simp only [addArticleToStory, hfind, hr0]

/-- C5 witness data: the row linking Reuters to story 1. -/
def c5row : StorySource :=
  { storyId := 1, articleId := 9, sourceName := "Reuters",
    credibilityScore := 19/20, isPrimary := true, similarityScore := 1 }

/-- C5 witness data: story 1. -/
def c5story : Story :=
  { id := 1, canonicalTitle := "t", category := "general", mood := "neutral",
    sourceCount := 1, sourceDiversity := 1/6, averageCredibility := 19/20,
    importanceScore := 0, firstSeen := 0, lastUpdated := 0 }

/-- C5 witness data: the store with story 1 linked to Reuters. -/
def c5db : DB :=
  { stories := [c5story], storySources := [c5row], sources := [], nextStoryId := 2 }

/-- C5 witness data: a second Reuters article matched to story 1. -/
def c5article : Article :=
  { id := 10, title := "t2", description := "", content := "",
    source := "Reuters", category := "general", mood := "neutral", publishedAt := 0 }

/-- C5, witness: the uniqueness theorem applied to a concrete duplicate-source
call. -/
theorem c5_witness :
    List.Pairwise (fun r1 r2 => ¬ (r1.storyId = r2.storyId ∧ r1.sourceName = r2.sourceName))
      c5db.storySources ∧
    (∃ r ∈ c5db.storySources, r.storyId = 1 ∧ r.sourceName = c5article.source) ∧
    (∃ db2, addArticleToStory c5db 0 1 c5article (7/10) = Except.ok db2 ∧
      db2.stories = c5db.stories ∧ db2.storySources = c5db.storySources) ∧
    (∀ db2, addArticleToStory c5db 0 1 c5article (7/10) = Except.ok db2 →
      List.Pairwise (fun r1 r2 => ¬ (r1.storyId = r2.storyId ∧ r1.sourceName = r2.sourceName))
        db2.storySources) := by
  have hpw : List.Pairwise
      (fun r1 r2 => ¬ (r1.storyId = r2.storyId ∧ r1.sourceName = r2.sourceName))
      c5db.storySources := List.pairwise_singleton _ _
  have hex : ∃ r ∈ c5db.storySources, r.storyId = 1 ∧ r.sourceName = c5article.source :=
    ⟨c5row, List.mem_cons_self _ _, rfl, rfl⟩
  have hsome : (c5db.stories.find? (fun t => decide (t.id = 1))).isSome := rfl
  exact ⟨hpw, hex, (c5_source_uniqueness c5db 0 1 c5article (7/10)).2 hex hsome,
    fun db2 hok => (c5_source_uniqueness c5db 0 1 c5article (7/10)).1 hpw db2 hok⟩

/-! ### C1 — importance freshness after addArticleToStory -/

lemma find?_map_update (l : List Story) (i : Nat) (s1 : Story) (hid : s1.id = i)
    (hsome : (l.find? (fun t => decide (t.id = i))).isSome) :
    (l.map (fun t => if t.id = s1.id then s1 else t)).find?
      (fun t => decide (t.id = i)) = some s1 := by
  induction l with
  | nil => simp at hsome
  | cons a t ih =>
    rw [List.map_cons]
    by_cases ha : a.id = i
    · have h1 : a.id = s1.id := by rw [hid]; exact ha
      rw [if_pos h1]
      exact List.find?_cons_of_pos _ (by simp [hid])
    · have h1 : ¬ a.id = s1.id := by rw [hid]; exact ha
      rw [if_neg h1]
      rw [List.find?_cons_of_neg _ (by simp [ha])]
      apply ih
      rwa [List.find?_cons_of_neg _ (by simp [ha])] at hsome

lemma importance_after_recalc (db : DB) (now : Int) (i : Nat) (s1 : Story)
    (hid : s1.id = i)
    (hsome : (db.stories.find? (fun t => decide (t.id = i))).isSome) (s : Story)
    (hs : (recalculateImportance (saveStory db s1) now i).stories.find?
      (fun t => decide (t.id = i)) = some s) :
    s.importanceScore = recalcImportanceValue s now := by
  have h1 : (saveStory db s1).stories.find? (fun t => decide (t.id = i)) = some s1 := by
    unfold saveStory
    exact find?_map_update db.stories i s1 hid hsome
  unfold recalculateImportance at hs
  rw [h1] at hs
  dsimp only at hs
  have h2 : (saveStory (saveStory db s1)
      { s1 with importanceScore := recalcImportanceValue s1 now }).stories.find?
      (fun t => decide (t.id = i)) =
      some { s1 with importanceScore := recalcImportanceValue s1 now } := by
    unfold saveStory
    exact find?_map_update _ i _ hid
      (by
        show ((saveStory db s1).stories.find? (fun t => decide (t.id = i))).isSome = true
        rw [h1]
        rfl)
  rw [h2] at hs
  injection hs with hs2
  rw [← hs2]
  rfl

/-- C1, amended: after an `addArticleToStory` call that actually links a new
source (not the duplicate-source skip path), the persisted `importanceScore`
of the story equals the *unrounded* §4.4 weighted sum recomputed from the
story's resulting `sourceCount`, `sourceDiversity`, `averageCredibility` and
`firstSeen` at the same instant — never stale, but, unlike
`calculateImportanceScore`, `Story.recalculateImportance` does not round to 3
decimal places. -/
theorem c1_importance_fresh (db : DB) (now : Int) (storyId : Nat) (article : Article)
    (simScore : ℚ) (db2 : DB)
    (hok : addArticleToStory db now storyId article simScore = Except.ok db2)
    (hnew : ∀ r ∈ db.storySources, ¬ (r.storyId = storyId ∧ r.sourceName = article.source))
    (s : Story) (hs : db2.stories.find? (fun t => decide (t.id = storyId)) = some s) :
    s.importanceScore = recalcImportanceValue s now := by
  unfold addArticleToStory at hok
  split at hok
  · exact absurd hok (by simp)
  · rename_i story hfind
    dsimp only at hok
    split at hok
    · rename_i r0 hr0
      exfalso
      have hpred := List.find?_some hr0
      have hmem := List.mem_of_find?_eq_some hr0
      rw [getOrCreateSource_storySources] at hmem
      have hcon := hnew r0 hmem
      simp only [Bool.and_eq_true, decide_eq_true_eq] at hpred
      exact hcon hpred
    · rename_i hguard
      injection hok with h
      have hsid : story.id = storyId := by simpa using List.find?_some hfind
      rw [← h] at hs
      refine importance_after_recalc _ now storyId _ ?_ ?_ s hs
      · exact hsid
      · show (((getOrCreateSource db now article.source).2.stories.find?
          (fun t => decide (t.id = storyId))).isSome = true)
        rw [getOrCreateSource_stories, hfind]
        rfl

/-- C1 data: story 1, seeded by Reuters (importance as created). -/
def c1story : Story :=
  { id := 1, canonicalTitle := "x", category := "general", mood := "neutral",
    sourceCount := 1, sourceDiversity := 1/6, averageCredibility := 95/100,
    importanceScore := 2375/10000, firstSeen := 0, lastUpdated := 0 }

/-- C1 data: the primary Reuters row of story 1. -/
def c1row : StorySource :=
  { storyId := 1, articleId := 1, sourceName := "Reuters",
    credibilityScore := 95/100, isPrimary := true, similarityScore := 1 }

/-- C1 data: the Reuters registry entry. -/
def c1source : Source :=
  { name := "Reuters", credibilityScore := 95/100, totalArticles := 1, lastSeenAt := 0 }

/-- C1 data: the store before the call. -/
def c1db : DB :=
  { stories := [c1story], storySources := [c1row], sources := [c1source], nextStoryId := 2 }

/-- C1 data: a BBC article matched to story 1. -/
def c1article : Article :=
  { id := 2, title := "x", description := "", content := "",
    source := "BBC", category := "general", mood := "neutral", publishedAt := 0 }

/-- C1 data: story 1 as persisted after the call — sourceCount 2, diversity
2/6, average credibility (0.95+0.9)/2, importance the *unrounded* weighted
sum 1379/2400. -/
def c1story2 : Story :=
  { id := 1, canonicalTitle := "x", category := "general", mood := "neutral",
    sourceCount := 2, sourceDiversity := 1/3, averageCredibility := 37/40,
    importanceScore := 1379/2400, firstSeen := 0, lastUpdated := 0 }

/-- C1 data: the BBC row created by the call. -/
def c1row2 : StorySource :=
  { storyId := 1, articleId := 2, sourceName := "BBC",
    credibilityScore := 9/10, isPrimary := false, similarityScore := 7/10 }

/-- C1 data: the BBC registry entry created by the call. -/
def c1sourceB : Source :=
  { name := "BBC", credibilityScore := 9/10, totalArticles := 1, lastSeenAt := 0 }

/-- C1 data: the store after the call. -/
def c1db2 : DB :=
  { stories := [c1story2], storySources := [c1row, c1row2],
    sources := [c1source, c1sourceB], nextStoryId := 2 }

/-- C1, counterexample: immediately after a successful `addArticleToStory`
the persisted score is the unrounded weighted sum `1379/2400 ≈ 0.5746`,
which differs from recomputing the §4.4 formula rounded to 3 decimal places
(`0.575`). -/
theorem c1_counterexample :
    (addArticleToStory c1db 0 1 c1article (7/10)).map
      (fun d => (d.stories.find? (fun t => decide (t.id = 1))).map
        (fun s => (s.importanceScore, specImportanceScore s 0))) =
      Except.ok (some (1379/2400, 23/40)) ∧
    ¬ (1379/2400 : ℚ) = 23/40 := by
  refine ⟨by with_unfolding_all rfl, by norm_num⟩

/-- C1, witness: the freshness theorem applied to the concrete call. -/
theorem c1_witness :
    addArticleToStory c1db 0 1 c1article (7/10) = Except.ok c1db2 ∧
    c1db2.stories.find? (fun t => decide (t.id = 1)) = some c1story2 ∧
    (∀ r ∈ c1db.storySources, ¬ (r.storyId = 1 ∧ r.sourceName = c1article.source)) ∧
    c1story2.importanceScore = recalcImportanceValue c1story2 0 := by
  have hok : addArticleToStory c1db 0 1 c1article (7/10) = Except.ok c1db2 := by
    with_unfolding_all rfl
  have hnew : ∀ r ∈ c1db.storySources, ¬ (r.storyId = 1 ∧ r.sourceName = c1article.source) := by
    decide
  have hs : c1db2.stories.find? (fun t => decide (t.id = 1)) = some c1story2 := rfl
  exact ⟨hok, hs, hnew,
    c1_importance_fresh c1db 0 1 c1article (7/10) c1db2 hok hnew c1story2 hs⟩

/-! ### C9 — ranked pagination -/

/-- C9 counterexample data: a business story inside the recency window. -/
def c9story : Story :=
  { id := 1, canonicalTitle := "b", category := "business", mood := "neutral",
    sourceCount := 1, sourceDiversity := 0, averageCredibility := 1/2,
    importanceScore := 1/2, firstSeen := 0, lastUpdated := 0 }

/-- C9 counterexample data: the store holding only the business story. -/
def c9db : DB :=
  { stories := [c9story], storySources := [], sources := [], nextStoryId := 2 }

/-- C9, counterexample: requesting `category = 'general'` returns the
business story — `'general'` is a sentinel that disables the category filter,
so the result does not satisfy the claimed category equality filter. -/
theorem c9_counterexample :
    (getWithCalmRanking c9db 0 1 20 (some "general") none 72).stories = [c9story] ∧
    ¬ c9story.category = "general" :=
  ⟨by with_unfolding_all rfl, by decide⟩

lemma calmMatches_props {category mood : Option String} {cutoff : Int} {s : Story}
    (h : calmMatches category mood cutoff s = true) :
    cutoff ≤ s.firstSeen ∧
    (∀ c, category = some c → ¬ c = "" → ¬ c = "general" → s.category = c) ∧
    (∀ m, mood = some m → ¬ m = "" → s.mood = m) := by
  unfold calmMatches at h
  rw [Bool.and_eq_true, Bool.and_eq_true] at h
  rcases h with ⟨⟨hcat, hmood⟩, hcut⟩
  refine ⟨by simpa using hcut, ?_, ?_⟩
  · intro c hc hne hng
    split at hcat
    · rename_i a
      have hac : a = c := by injection hc
      subst hac
      rw [if_pos ⟨hne, hng⟩] at hcat
      exact of_decide_eq_true hcat
    · exact Option.noConfusion hc
  · intro m hm hne
    split at hmood
    · rename_i a
      have ham : a = m := by injection hm
      subst ham
      rw [if_pos hne] at hmood
      exact of_decide_eq_true hmood
    · exact Option.noConfusion hm

lemma ceil_div_bounds (t limit : Nat) (hl : 1 ≤ limit) :
    t ≤ (t + limit - 1) / limit * limit ∧ (t + limit - 1) / limit * limit < t + limit := by
  constructor
  · have h := Nat.lt_div_mul_add (a := t + limit - 1) (b := limit) (by omega)
    have h2 : t + limit - 1 + 1 = t + limit := by omega
    have h3 : t + limit ≤ (t + limit - 1) / limit * limit + limit := by
      rw [← h2]
      exact h
    exact Nat.le_of_add_le_add_right h3
  · exact Nat.lt_of_le_of_lt (Nat.div_mul_le_self _ _) (by omega)

lemma calmMatches_eq_spec (category mood : Option String) (cutoff : Int) (s : Story) :
    calmMatches category mood cutoff s =
      ((category.all (fun c => decide (c = "") || decide (c = "general") ||
          decide (s.category = c)) &&
        mood.all (fun m => decide (m = "") || decide (s.mood = m))) &&
       decide (cutoff ≤ s.firstSeen)) := by
  unfold calmMatches
  congr 1
  congr 1
  · cases category with
    | none => rfl
    | some c =>
      simp only [Option.all_some]
      by_cases h1 : c = ""
      · simp [h1]
      · by_cases h2 : c = "general"
        · simp [h1, h2]
        · simp [h1, h2]
  · cases mood with
    | none => rfl
    | some m =>
      simp only [Option.all_some]
      by_cases h1 : m = ""
      · simp [h1]
      · simp [h1]

/-- C9, amended: `getWithCalmRanking` returns the requested page of the
stories with `firstSeen ≥ now − maxAgeHours`, filtered by the optional mood
equality and by category equality *only when the requested category is neither
absent, empty nor the sentinel `'general'` (which disables the category
filter)*, sorted by `importanceScore` descending with `lastUpdated` descending
as tie-break, with `total` counting every matching story,
`totalPages = ceil(total/limit)` and `hasMore ↔ page·limit < total`. -/
theorem c9_get_ranked (db : DB) (now : Int) (page limit : Nat)
    (category mood : Option String) (maxAgeHours : Nat)
    (_hp : 1 ≤ page) (hl : 1 ≤ limit) (res : RankedResult)
    (hres : getWithCalmRanking db now page limit category mood maxAgeHours = res) :
    (∀ s ∈ res.stories, s ∈ db.stories ∧
      now - (maxAgeHours : Int) * 60 * 60 * 1000 ≤ s.firstSeen ∧
      (∀ c, category = some c → ¬ c = "" → ¬ c = "general" → s.category = c) ∧
      (∀ m, mood = some m → ¬ m = "" → s.mood = m)) ∧
    res.stories.Pairwise (fun a b => b.importanceScore < a.importanceScore ∨
      (a.importanceScore = b.importanceScore ∧ b.lastUpdated ≤ a.lastUpdated)) ∧
    res.stories.length ≤ limit ∧
    res.total = db.stories.countP (fun s =>
      (category.all (fun c => decide (c = "") || decide (c = "general") ||
          decide (s.category = c)) &&
        mood.all (fun m => decide (m = "") || decide (s.mood = m))) &&
      decide (now - (maxAgeHours : Int) * 60 * 60 * 1000 ≤ s.firstSeen)) ∧
    res.page = page ∧ res.limit = limit ∧
    res.total ≤ res.totalPages * limit ∧ res.totalPages * limit < res.total + limit ∧
    (res.hasMore = true ↔ page * limit < res.total) := by
  subst hres
  have hstories : (getWithCalmRanking db now page limit category mood maxAgeHours).stories =
      ((List.insertionSort storyRankGE
        (db.stories.filter
          (calmMatches category mood (now - (maxAgeHours : Int) * 60 * 60 * 1000)))).drop
        ((page - 1) * limit)).take limit := rfl
  have htotal : (getWithCalmRanking db now page limit category mood maxAgeHours).total =
      (db.stories.filter
        (calmMatches category mood (now - (maxAgeHours : Int) * 60 * 60 * 1000))).length := rfl
  have htp : (getWithCalmRanking db now page limit category mood maxAgeHours).totalPages =
      ((db.stories.filter
        (calmMatches category mood (now - (maxAgeHours : Int) * 60 * 60 * 1000))).length
        + limit - 1) / limit := rfl
  have hhm : (getWithCalmRanking db now page limit category mood maxAgeHours).hasMore =
      decide (page * limit <
        (db.stories.filter
          (calmMatches category mood (now - (maxAgeHours : Int) * 60 * 60 * 1000))).length) :=
    rfl
  refine ⟨?_, ?_, ?_, ?_, rfl, rfl, ?_, ?_, ?_⟩
  · intro s hs
    rw [hstories] at hs
    have hs1 : s ∈ List.insertionSort storyRankGE
        (db.stories.filter
          (calmMatches category mood (now - (maxAgeHours : Int) * 60 * 60 * 1000))) :=
      List.mem_of_mem_drop (List.mem_of_mem_take hs)
    rw [List.mem_insertionSort] at hs1
    rcases List.mem_filter.mp hs1 with ⟨hmem, hmatch⟩
    have hprops := calmMatches_props hmatch
    exact ⟨hmem, hprops.1, hprops.2.1, hprops.2.2⟩
  · rw [hstories]
    have hsorted : List.Sorted storyRankGE
        (List.insertionSort storyRankGE
          (db.stories.filter
            (calmMatches category mood (now - (maxAgeHours : Int) * 60 * 60 * 1000)))) :=
      List.sorted_insertionSort storyRankGE _
    have hsub : List.Sublist
        (((List.insertionSort storyRankGE
          (db.stories.filter
            (calmMatches category mood
              (now - (maxAgeHours : Int) * 60 * 60 * 1000)))).drop
            ((page - 1) * limit)).take limit)
        (List.insertionSort storyRankGE
          (db.stories.filter
            (calmMatches category mood (now - (maxAgeHours : Int) * 60 * 60 * 1000)))) :=
      List.Sublist.trans (List.take_sublist _ _) (List.drop_sublist _ _)
    exact (List.Pairwise.sublist hsub hsorted).imp (fun h => h)
  · rw [hstories, List.length_take]
    exact Nat.min_le_left _ _
  · rw [htotal, List.countP_eq_length_filter]
    congr 1
    apply List.filter_congr
    intro s _
    exact calmMatches_eq_spec category mood _ s
  · rw [htotal, htp]
    exact (ceil_div_bounds _ limit hl).1
  · rw [htotal, htp]
    exact (ceil_div_bounds _ limit hl).2
  · rw [hhm, htotal]
    simp

/-- C9 witness data: the higher-ranked business story. -/
def c9storyA : Story :=
  { id := 1, canonicalTitle := "a", category := "business", mood := "calm",
    sourceCount := 2, sourceDiversity := 1/3, averageCredibility := 3/4,
    importanceScore := 3/4, firstSeen := 0, lastUpdated := 5 }

/-- C9 witness data: the lower-ranked business story. -/
def c9storyB : Story :=
  { id := 2, canonicalTitle := "b", category := "business", mood := "neutral",
    sourceCount := 1, sourceDiversity := 1/6, averageCredibility := 1/2,
    importanceScore := 1/2, firstSeen := 0, lastUpdated := 9 }

/-- C9 witness data: a technology story that must be filtered out. -/
def c9storyC : Story :=
  { id := 3, canonicalTitle := "c", category := "technology", mood := "neutral",
    sourceCount := 1, sourceDiversity := 1/6, averageCredibility := 1/2,
    importanceScore := 9/10, firstSeen := 0, lastUpdated := 0 }

/-- C9 witness data: the store with the three stories. -/
def c9wdb : DB :=
  { stories := [c9storyB, c9storyA, c9storyC], storySources := [], sources := [],
    nextStoryId := 4 }

/-- C9 witness data: the evaluated result for
`getWithCalmRanking(page 1, limit 20, category business)`. -/
def c9res : RankedResult :=
  { stories := [c9storyA, c9storyB], page := 1, limit := 20, total := 2,
    totalPages := 1, hasMore := false }

/-- C9, witness: the amended pagination theorem applied to a concrete store
and query. -/
theorem c9_witness :
    (∀ s ∈ c9res.stories, s ∈ c9wdb.stories ∧
      (0 : Int) - (72 : Nat) * 60 * 60 * 1000 ≤ s.firstSeen ∧
      (∀ c, (some "business" : Option String) = some c → ¬ c = "" → ¬ c = "general" →
        s.category = c) ∧
      (∀ m, (none : Option String) = some m → ¬ m = "" → s.mood = m)) ∧
    c9res.stories.Pairwise (fun a b => b.importanceScore < a.importanceScore ∨
      (a.importanceScore = b.importanceScore ∧ b.lastUpdated ≤ a.lastUpdated)) ∧
    c9res.stories.length ≤ 20 ∧
    c9res.total = c9wdb.stories.countP (fun s =>
      ((some "business" : Option String).all (fun c => decide (c = "") ||
          decide (c = "general") || decide (s.category = c)) &&
        (none : Option String).all (fun m => decide (m = "") || decide (s.mood = m))) &&
      decide ((0 : Int) - (72 : Nat) * 60 * 60 * 1000 ≤ s.firstSeen)) ∧
    c9res.page = 1 ∧ c9res.limit = 20 ∧
    c9res.total ≤ c9res.totalPages * 20 ∧ c9res.totalPages * 20 < c9res.total + 20 ∧
    (c9res.hasMore = true ↔ 1 * 20 < c9res.total) :=
  c9_get_ranked c9wdb 0 1 20 (some "business") none 72 (by norm_num) (by norm_num)
    c9res (by with_unfolding_all rfl)

/-! ### C4 — the context timeline -/

/-- C4 data: the current story.  Its significant title words under the
*context* service's extractor are `what`, `this`, `budget`; under the §4.1
similarity engine's stop-word policy only `budget` survives. -/
def c4current : Story :=
  { id := 1, canonicalTitle := "What This Budget", category := "general",
    mood := "neutral", sourceCount := 1, sourceDiversity := 0,
    averageCredibility := 1/2, importanceScore := 0,
    firstSeen := 1000000, lastUpdated := 1000000 }

/-- C4 data: a prior story in the same category sharing only the words
`what` and `this` with the current story's title. -/
def c4prior : Story :=
  { id := 2, canonicalTitle := "What This Taxes", category := "general",
    mood := "neutral", sourceCount := 1, sourceDiversity := 0,
    averageCredibility := 1/2, importanceScore := 0,
    firstSeen := 500000, lastUpdated := 500000 }

/-- C4 data: the store with the two stories. -/
def c4db : DB :=
  { stories := [c4current, c4prior], storySources := [], sources := [], nextStoryId := 3 }

/-- C4, counterexample: `buildTimeline` includes the prior story (the context
service's own relevance is 1/2, because its shorter stop-word list keeps
`what` and `this`), although the claimed relevance — plain Jaccard over the
§4.1-policy word sets of the two titles — is 0, not above the 0.3 threshold,
so per the claim the story must not appear. -/
theorem c4_counterexample :
    (buildTimeline c4db 1000000 1 30).map (fun r => r.timeline.map (fun e => e.storyId)) =
      some [2] ∧
    calculateSimilarity c4current.canonicalTitle c4prior.canonicalTitle = 0 ∧
    ¬ ((3 : ℚ)/10 < calculateSimilarity c4current.canonicalTitle c4prior.canonicalTitle) := by
  refine ⟨by with_unfolding_all rfl, by with_unfolding_all rfl, ?_⟩
  rw [show calculateSimilarity c4current.canonicalTitle c4prior.canonicalTitle = 0 from
    by with_unfolding_all rfl]
  norm_num

lemma length_insertionSort_map_filter {α β : Type} (r : β → β → Prop) [DecidableRel r]
    (f : α → β) (p : α → Bool) (l : List α) :
    (List.insertionSort r ((l.filter p).map f)).length = l.countP p := by
  rw [(List.perm_insertionSort r _).length_eq, List.length_map,
    List.countP_eq_length_filter]

lemma mem_take_sorted_or_full {α : Type} (r : α → α → Prop) [DecidableRel r]
    (n : Nat) (l : List α) (x : α) (hx : x ∈ l) :
    n ≤ ((List.insertionSort r l).take n).length ∨
      x ∈ (List.insertionSort r l).take n := by
  rcases Nat.lt_or_ge (List.insertionSort r l).length n with hlt | hge
  · right
    rw [List.take_of_length_le (Nat.le_of_lt hlt)]
    exact (List.mem_insertionSort r).mpr hx
  · left
    rw [List.length_take]
    exact le_min le_rfl hge

/-- C4, amended: the candidates of `buildTimeline` are the same-category
stories with `firstSeen` in `[now − days, story.firstSeen)` other than the
story itself, sorted by `firstSeen` descending and *capped to the 10 most
recent*; `totalRelated` is exactly the number of those capped candidates whose
relevance per the context service's own `calculateRelevance` (shorter
stop-word list, punctuation deleted, intersection counted with multiplicity
over the first title's word list, over the union word set) exceeds 0.3; the
timeline is the top `min 5 totalRelated` of the kept entries by date
descending — every kept capped candidate appears unless the 5-entry cap is
already reached — and each entry's source story is one of the capped
candidates, so a prior story of a different category never appears. -/
theorem c4_timeline (db : DB) (now : Int) (storyId : Nat) (days : Nat)
    (story : Story) (res : TimelineResult)
    (hfind : db.stories.find? (fun t => decide (t.id = storyId)) = some story)
    (hres : buildTimeline db now storyId days = some res) :
    res.timeline.length ≤ 5 ∧
    res.timeline.length = min 5 res.totalRelated ∧
    res.totalRelated =
      ((List.insertionSort storyDateGE
        (db.stories.filter (fun s => decide (¬ s.id = storyId ∧
          s.category = story.category ∧
          now - (days : Int) * 24 * 60 * 60 * 1000 ≤ s.firstSeen ∧
          s.firstSeen < story.firstSeen)))).take 10).countP
        (fun s => decide ((3 : ℚ)/10 < calculateRelevance story s)) ∧
    res.timeline.Pairwise (fun a b => b.date ≤ a.date) ∧
    (∀ e ∈ res.timeline, ∃ s,
      s ∈ (List.insertionSort storyDateGE
        (db.stories.filter (fun s => decide (¬ s.id = storyId ∧
          s.category = story.category ∧
          now - (days : Int) * 24 * 60 * 60 * 1000 ≤ s.firstSeen ∧
          s.firstSeen < story.firstSeen)))).take 10 ∧
      s ∈ db.stories ∧ s.id = e.storyId ∧
      ¬ s.id = storyId ∧ s.category = story.category ∧
      now - (days : Int) * 24 * 60 * 60 * 1000 ≤ s.firstSeen ∧
      s.firstSeen < story.firstSeen ∧
      e.relevanceScore = calculateRelevance story s ∧
      (3 : ℚ)/10 < e.relevanceScore ∧
      e.date = s.firstSeen ∧ e.title = s.canonicalTitle ∧
      e.relationship = determineRelationship story s) ∧
    (∀ s ∈ (List.insertionSort storyDateGE
        (db.stories.filter (fun s => decide (¬ s.id = storyId ∧
          s.category = story.category ∧
          now - (days : Int) * 24 * 60 * 60 * 1000 ≤ s.firstSeen ∧
          s.firstSeen < story.firstSeen)))).take 10,
      (3 : ℚ)/10 < calculateRelevance story s →
      5 ≤ res.timeline.length ∨
      ∃ e ∈ res.timeline, e.storyId = s.id ∧ e.date = s.firstSeen ∧
        e.relevanceScore = calculateRelevance story s) := by
  have hfiltereq : db.stories.filter
      (fun s => decide (¬ s.id = storyId) && decide (s.category = story.category) &&
        decide (now - (days : Int) * 24 * 60 * 60 * 1000 ≤ s.firstSeen) &&
        decide (s.firstSeen < story.firstSeen)) =
      db.stories.filter (fun s => decide (¬ s.id = storyId ∧
        s.category = story.category ∧
        now - (days : Int) * 24 * 60 * 60 * 1000 ≤ s.firstSeen ∧
        s.firstSeen < story.firstSeen)) := by
    apply List.filter_congr
    intro s _
    by_cases h1 : s.id = storyId <;>
      by_cases h2 : s.category = story.category <;>
      by_cases h3 : now - (days : Int) * 24 * 60 * 60 * 1000 ≤ s.firstSeen <;>
      by_cases h4 : s.firstSeen < story.firstSeen <;>
      simp [h1, h2, h3, h4]
  unfold buildTimeline at hres
  rw [hfind] at hres
  dsimp only at hres
  injection hres with hres2
  subst hres2
  dsimp only
  rw [← hfiltereq]
  refine ⟨?_, ?_, ?_, ?_, ?_, ?_⟩
  · rw [List.length_take]
    exact Nat.min_le_left _ _
  · exact List.length_take 5 _
  · exact length_insertionSort_map_filter entryDateGE _ _ _
  · refine (List.Pairwise.sublist (List.take_sublist _ _) ?_).imp (fun h => h)
    exact List.sorted_insertionSort entryDateGE _
  · intro e he
    have he1 := List.mem_of_mem_take he
    rw [List.mem_insertionSort] at he1
    rcases List.mem_map.mp he1 with ⟨related, hrel, hmk⟩
    rcases List.mem_filter.mp hrel with ⟨hcand, hrelp⟩
    have hrelevance : (3 : ℚ)/10 < calculateRelevance story related :=
      of_decide_eq_true hrelp
    have hcand1 := List.mem_of_mem_take hcand
    rw [List.mem_insertionSort] at hcand1
    rcases List.mem_filter.mp hcand1 with ⟨hmem, hcond⟩
    simp only [Bool.and_eq_true, decide_eq_true_eq] at hcond
    rcases hcond with ⟨⟨⟨hid, hcat⟩, hcut⟩, hbefore⟩
    subst hmk
    exact ⟨related, hcand, hmem, rfl, hid, hcat, hcut, hbefore, rfl, hrelevance,
      rfl, rfl, rfl⟩
  · intro s hs hrel
    have hkept : s ∈ ((List.insertionSort storyDateGE
        (db.stories.filter
          (fun s => decide (¬ s.id = storyId) && decide (s.category = story.category) &&
            decide (now - (days : Int) * 24 * 60 * 60 * 1000 ≤ s.firstSeen) &&
            decide (s.firstSeen < story.firstSeen)))).take 10).filter
        (fun related => decide ((3 : ℚ)/10 < calculateRelevance story related)) :=
      List.mem_filter.mpr ⟨hs, decide_eq_true hrel⟩
    have hentry := List.mem_map_of_mem
      (fun related =>
        ({ date := related.firstSeen, title := related.canonicalTitle,
           storyId := related.id,
           relevanceScore := calculateRelevance story related,
           relationship := determineRelationship story related } : TimelineEntry))
      hkept
    rcases mem_take_sorted_or_full entryDateGE 5 _ _ hentry with hfull | hmem5
    · exact Or.inl hfull
    · exact Or.inr ⟨_, hmem5, rfl, rfl, rfl⟩

/-- C4 data: the single evaluated timeline entry for the concrete store. -/
def c4entry : TimelineEntry :=
  { date := 500000, title := "What This Taxes", storyId := 2,
    relevanceScore := 1/2, relationship := "PRECEDES" }

/-- C4 data: the evaluated timeline for the concrete store. -/
def c4res : TimelineResult :=
  { currentStoryId := 1, timeline := [c4entry], totalRelated := 1 }

/-- C4, witness: the amended timeline theorem applied to the concrete store. -/
theorem c4_witness :
    c4res.timeline.length ≤ 5 ∧
    c4res.timeline.length = min 5 c4res.totalRelated ∧
    c4res.totalRelated =
      ((List.insertionSort storyDateGE
        (c4db.stories.filter (fun s => decide (¬ s.id = 1 ∧
          s.category = c4current.category ∧
          (1000000 : Int) - ((30 : Nat) : Int) * 24 * 60 * 60 * 1000 ≤ s.firstSeen ∧
          s.firstSeen < c4current.firstSeen)))).take 10).countP
        (fun s => decide ((3 : ℚ)/10 < calculateRelevance c4current s)) ∧
    c4res.timeline.Pairwise (fun a b => b.date ≤ a.date) ∧
    (∀ e ∈ c4res.timeline, ∃ s,
      s ∈ (List.insertionSort storyDateGE
        (c4db.stories.filter (fun s => decide (¬ s.id = 1 ∧
          s.category = c4current.category ∧
          (1000000 : Int) - ((30 : Nat) : Int) * 24 * 60 * 60 * 1000 ≤ s.firstSeen ∧
          s.firstSeen < c4current.firstSeen)))).take 10 ∧
      s ∈ c4db.stories ∧ s.id = e.storyId ∧
      ¬ s.id = 1 ∧ s.category = c4current.category ∧
      (1000000 : Int) - ((30 : Nat) : Int) * 24 * 60 * 60 * 1000 ≤ s.firstSeen ∧
      s.firstSeen < c4current.firstSeen ∧
      e.relevanceScore = calculateRelevance c4current s ∧
      (3 : ℚ)/10 < e.relevanceScore ∧
      e.date = s.firstSeen ∧ e.title = s.canonicalTitle ∧
      e.relationship = determineRelationship c4current s) ∧
    (∀ s ∈ (List.insertionSort storyDateGE
        (c4db.stories.filter (fun s => decide (¬ s.id = 1 ∧
          s.category = c4current.category ∧
          (1000000 : Int) - ((30 : Nat) : Int) * 24 * 60 * 60 * 1000 ≤ s.firstSeen ∧
          s.firstSeen < c4current.firstSeen)))).take 10,
      (3 : ℚ)/10 < calculateRelevance c4current s →
      5 ≤ c4res.timeline.length ∨
      ∃ e ∈ c4res.timeline, e.storyId = s.id ∧ e.date = s.firstSeen ∧
        e.relevanceScore = calculateRelevance c4current s) :=
  c4_timeline c4db 1000000 1 30 c4current c4res (by with_unfolding_all rfl)
    (by with_unfolding_all rfl)

end Newslett
